import Mathlib

/-!
Verification development for the RAF Bomber Command research database.

This file gives a shallow embedding of the core logic of the repository:

* `DatabaseManager.search_personnel` (src/app.py): the relevance-ranked,
  filterable personnel search backed by a SQLite query, and its HTTP route
  `/api/personnel/search`;
* the multi-agent research system
  (src/ai_system/complete_ai_research_system.py): agent selection, the
  per-agent `analyze` call with its degraded fallbacks, database-context
  gathering, dispatch, synthesis, and the `/api/multi-agent-research` route.

Modelling conventions:

* Python/SQLite strings are Lean `String`s; `str.strip()` and `s[:n]`
  operate on code points, modelled by `pyStrip` and `pyTake` over `.data`.
* `LOWER(x)` in SQLite folds ASCII case only, which is exactly what
  `Char.toLower` does.
* `field LIKE '%' || q || '%'` is modelled by a full `LIKE` pattern
  matcher (`likeMatch`): `%` in the bound pattern matches any character
  sequence and `_` any single character, exactly as SQLite interprets
  wildcards inside a bound parameter; matching is made case-insensitive by
  the surrounding `LOWER` calls.
* The SQL `ORDER BY score DESC, name ASC ... LIMIT n` is modelled as a
  merge sort by that key followed by `List.take n`; `name ASC` uses the
  binary (code-point) order on strings, which `String`'s linear order is.
* Python floats (confidences, times) are modelled as exact rationals `ℚ`.
* The generative backend (OpenAI) and the SQLite store are external
  effects; they enter the embedding as explicit outcome parameters
  (`Backend`, `Except` values), so every modelled function is total and
  executable.
-/

namespace RafVerify

/-- Whitespace stripped by Python `str.strip()` (ASCII portion). -/
def pySpace (c : Char) : Bool :=
  c = ' ' || c = '\t' || c = '\n' || c = '\r' || c = '\x0b' || c = '\x0c'

/-- Python `str.strip()`: drop leading and trailing whitespace code points. -/
def pyStrip (s : String) : String :=
  String.mk (List.rdropWhile pySpace (s.data.dropWhile pySpace))

/-- Python slicing `s[:n]` on code points. -/
def pyTake (n : Nat) (s : String) : String :=
  String.mk (s.data.take n)

/-- SQLite `LOWER`: ASCII case folding, as a list of code points. -/
def sqlLower (s : String) : List Char :=
  s.data.map Char.toLower

/-- `hasSubstr pat hay`: `pat` occurs as a contiguous run inside `hay`
(literal substring containment, Python's `in` operator). -/
def hasSubstr (pat : List Char) : List Char → Bool
  | [] => List.isPrefixOf pat []
  | c :: rest => List.isPrefixOf pat (c :: rest) || hasSubstr pat rest

/-- SQLite `LIKE` pattern matching on code points: `%` matches any sequence
of characters, `_` matches any single character, anything else matches
itself; there is no `ESCAPE` clause in the queries modelled here.
Structurally recursive on the pattern: `%` tries every suffix of the
text. -/
def likeMatch : List Char → List Char → Bool
  | [], text => text.isEmpty
  | c :: ps, text =>
    if c = '%' then text.tails.any (fun t => likeMatch ps t)
    else
      match text with
      | [] => false
      | t :: ts => (c = '_' || t = c) && likeMatch ps ts

/-- `LOWER(field) LIKE LOWER('%' || q || '%')`: the query is interpolated
into the pattern, so `%`/`_` characters inside it act as wildcards
(parameter binding protects against SQL injection, not against pattern
metacharacters); `LOWER` leaves the wildcards unchanged. -/
def likeContains (field q : String) : Bool :=
  likeMatch ('%' :: sqlLower q ++ ['%']) (sqlLower field)

/-- `LOWER(a) = LOWER(b)`: case-insensitive string equality. -/
def sqlEq (a b : String) : Bool :=
  sqlLower a = sqlLower b

/-- A row of the `personnel` table created by `initialize_database` in
src/app.py (the autoincrement `id` is irrelevant to every claim and omitted;
`age_at_death` is a nullable INTEGER column). -/
structure Person where
  name : String
  service_number : String := ""
  rank : String := ""
  role : String := ""
  squadron : String := ""
  biography : String := ""
  memorial_info : String := ""
  date_of_birth : String := ""
  date_of_death : String := ""
  age_at_death : Option Int := none
deriving DecidableEq, Repr

/-- The optional filters read by `DatabaseManager.search_personnel`:
`filters.get('squadron')`, `filters.get('rank')`, `filters.get('role')`.
`none` models an absent key (or an absent/`None` filters dict). -/
structure Filters where
  squadron : Option String := none
  rank : Option String := none
  role : Option String := none
deriving DecidableEq, Repr

/-- The empty filter map (`filters=None` in Python). -/
def noFilters : Filters := {}

/-- The `WHERE` clause of the personnel search: some searchable column
(name, service_number, squadron, rank, role, biography) `LIKE`-matches the
pattern `%query%`. -/
def matchesText (q : String) (p : Person) : Bool :=
  likeContains p.name q || likeContains p.service_number q ||
  likeContains p.squadron q || likeContains p.rank q ||
  likeContains p.role q || likeContains p.biography q

/-- One optional filter condition: a Python-falsy value (absent key or empty
string) adds no condition; otherwise `LOWER(col) LIKE LOWER('%v%')`. -/
def filterCond (v : Option String) (field : String) : Bool :=
  match v with
  | none => true
  | some s => s.isEmpty || likeContains field s

/-- The conjunction of the filter conditions appended to the `WHERE` clause
by `search_personnel`. -/
def matchesFilters (f : Filters) (p : Person) : Bool :=
  filterCond f.squadron p.squadron && filterCond f.rank p.rank &&
  filterCond f.role p.role

/-- The `CASE` expression computing `relevance_score` in
`DatabaseManager.search_personnel` (src/app.py lines 229-238). -/
def relevance_score (q : String) (p : Person) : Nat :=
  if sqlEq p.name q then 10
  else if sqlEq p.service_number q then 10
  else if likeContains p.name q then 8
  else if likeContains p.service_number q then 8
  else if likeContains p.squadron q then 6
  else if likeContains p.rank q then 4
  else if likeContains p.role q then 3
  else 1

/-- The effective query text: `query.strip()[:100]` (src/app.py line 224). -/
def effectiveQuery (query : String) : String :=
  pyTake 100 (pyStrip query)

/-- Lexicographic `≤` on code-point lists: SQLite's BINARY collation on
UTF-8 text coincides with code-point lexicographic order. -/
def lexLE : List Char → List Char → Bool
  | [], _ => true
  | _ :: _, [] => false
  | a :: as, b :: bs => decide (a < b) || (decide (a = b) && lexLE as bs)

/-- `name ASC` with SQLite's default BINARY collation. -/
def nameLE (a b : String) : Bool :=
  lexLE a.data b.data

/-- `ORDER BY relevance_score DESC, name ASC` as an ordering relation on
scored rows. -/
def searchOrder (a b : Person × Nat) : Prop :=
  b.2 < a.2 ∨ (a.2 = b.2 ∧ nameLE a.1.name b.1.name = true)

instance searchOrder.decidableRel : DecidableRel searchOrder := fun a b => by
  unfold searchOrder; infer_instance

/-- The scored, filtered candidate rows of the personnel search, before
ordering and truncation. -/
def searchRows (db : List Person) (q : String) (f : Filters) :
    List (Person × Nat) :=
  (db.filter (fun p => matchesText q p && matchesFilters f p)).map
    (fun p => (p, relevance_score q p))

/-- `DatabaseManager.search_personnel` (src/app.py lines 217-288) against an
in-memory table `db`: strip and truncate the query, keep the rows matched by
the text predicate and all present filters, attach the tiered relevance
score, order by score descending then name ascending, truncate to `limit`
(default 20). -/
def search_personnel (db : List Person) (query : String) (f : Filters)
    (limit : Nat := 20) : List (Person × Nat) :=
  ((searchRows db (effectiveQuery query) f).insertionSort searchOrder).take limit

/-! ## The multi-agent research system
(src/ai_system/complete_ai_research_system.py) -/

/-- Python `str.lower()` restricted to ASCII folding (every trigger term and
query considered here is ASCII). -/
def pyLower (s : String) : String :=
  String.mk (s.data.map Char.toLower)

/-- A specialist agent of the registry: its display name and expertise
blurb (the `SpecialistAgent` subclasses). -/
structure Agent where
  name : String
  expertise : String
deriving DecidableEq, Repr

/-- The outcome of the generative-backend interaction for one `analyze`
call: no client configured (`openai.api_key` unset), a successful completion
with the returned text, or a raised error with its message. -/
inductive Backend where
  | unavailable
  | ok (text : String)
  | error (msg : String)
deriving DecidableEq, Repr

/-- `AgentResponse` dataclass; confidences and times are exact rationals. -/
structure AgentResponse where
  agent_name : String
  analysis : String
  confidence : ℚ
  sources : List String
  processing_time : ℚ
deriving DecidableEq, Repr

/-- `SpecialistAgent.analyze` (lines 66-104): fallback text and confidence
0.5 when no client is configured; the completion text with confidence
`min 0.9 (len/1000)` on success; and the caught-exception branch producing
explanatory text and confidence 0.3. Wall-clock timing is abstracted as the
`elapsed` argument. -/
def Agent.analyze (a : Agent) (b : Backend) (query : String) (elapsed : ℚ) :
    AgentResponse :=
  match b with
  | .unavailable =>
      { agent_name := a.name
        analysis := "AI analysis temporarily unavailable. " ++ a.expertise ++
          " specialist would analyze: " ++ query
        confidence := 1/2
        sources := []
        processing_time := elapsed }
  | .ok text =>
      { agent_name := a.name
        analysis := text
        confidence := min (9/10) ((text.length : ℚ) / 1000)
        sources := []
        processing_time := elapsed }
  | .error e =>
      { agent_name := a.name
        analysis := "Analysis error: " ++ e ++ ". " ++ a.expertise ++
          " specialist attempted to analyze: " ++ query
        confidence := 3/10
        sources := []
        processing_time := elapsed }

/-- The registry keys of `MultiAgentResearchSystem.__init__`, in declaration
order. -/
def registryKeys : List String :=
  ["personnel", "aircraft", "operations", "historical", "statistical"]

/-- The agent registered under each key (and a dummy for unknown keys,
never reached from the selector). -/
def agentOf : String → Agent
  | "personnel" => ⟨"Personnel Specialist",
      "biographical research, service records, and personal histories of RAF personnel"⟩
  | "aircraft" => ⟨"Aircraft Specialist",
      "aircraft technical specifications, service history, and operational capabilities"⟩
  | "operations" => ⟨"Operations Specialist",
      "mission analysis, tactical operations, and combat effectiveness"⟩
  | "historical" => ⟨"Historical Context Specialist",
      "strategic analysis, historical significance, and broader wartime context"⟩
  | "statistical" => ⟨"Statistical Analyst",
      "data analysis, statistical patterns, and quantitative research"⟩
  | _ => ⟨"", ""⟩

/-- Trigger terms of `_select_agents`, per registry key. -/
def triggerTerms : String → List String
  | "personnel" => ["patrick", "cassidy", "personnel", "crew", "service"]
  | "aircraft" => ["aircraft", "lancaster", "jb174", "bomber"]
  | "operations" => ["mission", "operation", "raid", "combat", "pathfinder"]
  | "historical" => ["history", "context", "war", "strategic"]
  | "statistical" => ["statistics", "data", "analysis", "numbers"]
  | _ => []

/-- Python `term in query_lower`: substring containment. -/
def containsTerm (ql : String) (t : String) : Bool :=
  hasSubstr t.data ql.data

/-- `MultiAgentResearchSystem._select_agents` (lines 271-296): lower-case
the query, include each registry key in declaration order when one of its
trigger terms occurs in it, and fall back to the fixed default pair when
nothing matched. -/
def _select_agents (query : String) : List String :=
  let ql := pyLower query
  let agents :=
    (if (triggerTerms "personnel").any (containsTerm ql) then ["personnel"] else []) ++
    (if (triggerTerms "aircraft").any (containsTerm ql) then ["aircraft"] else []) ++
    (if (triggerTerms "operations").any (containsTerm ql) then ["operations"] else []) ++
    (if (triggerTerms "historical").any (containsTerm ql) then ["historical"] else []) ++
    (if (triggerTerms "statistical").any (containsTerm ql) then ["statistical"] else [])
  if agents.isEmpty then ["personnel", "historical"] else agents

/-- A row of the AI system's `aircraft` table (fields read by
`_get_database_context`). -/
structure Aircraft where
  serial_number : String
  aircraft_type : String := ""
  squadron : String := ""
  service_history : String := ""
  notable_crew : String := ""
deriving DecidableEq, Repr

/-- The record store seen by `_get_database_context`: either the two tables,
or a raised error message. -/
abbrev Store := Except String (List Person × List Aircraft)

/-- The personnel context query: `WHERE name LIKE ? OR service_number LIKE ?
OR biography LIKE ? LIMIT 3` (SQLite `LIKE` is ASCII-case-insensitive). -/
def contextPersonnel (db : List Person) (q : String) : List Person :=
  (db.filter (fun p => likeContains p.name q || likeContains p.service_number q ||
    likeContains p.biography q)).take 3

/-- The aircraft context query: `WHERE serial_number LIKE ? OR
service_history LIKE ? LIMIT 3`. -/
def contextAircraft (db : List Aircraft) (q : String) : List Aircraft :=
  (db.filter (fun a => likeContains a.serial_number q ||
    likeContains a.service_history q)).take 3

/-- One personnel line of the context block. -/
def personnelLine (p : Person) : String :=
  "- " ++ p.name ++ " (" ++ p.service_number ++ "): " ++ p.rank ++ " " ++
    p.role ++ ", " ++ p.squadron ++ "\n"

/-- One aircraft line of the context block. -/
def aircraftLine (a : Aircraft) : String :=
  "- " ++ a.serial_number ++ " (" ++ a.aircraft_type ++ "): " ++ a.squadron ++
    " - " ++ a.service_history ++ "\n"

/-- `MultiAgentResearchSystem._get_database_context` (lines 298-338): render
up to three matching personnel rows and up to three matching aircraft rows
into a labelled text block, omitting a section when it has no candidates;
a store failure is caught and yields the `"Database context unavailable:"`
string. -/
def _get_database_context (store : Store) (query : String) : String :=
  match store with
  | .error e => "Database context unavailable: " ++ e
  | .ok (pdb, adb) =>
    let ctx := "Database Context:\n"
    let prs := contextPersonnel pdb query
    let ctx := if prs.isEmpty then ctx else
      ctx ++ "\nPersonnel Records:\n" ++ String.join (prs.map personnelLine)
    let ars := contextAircraft adb query
    if ars.isEmpty then ctx else
      ctx ++ "\nAircraft Records:\n" ++ String.join (ars.map aircraftLine)

/-- `ResearchQuery` dataclass. -/
structure ResearchQuery where
  query : String
  context : String := ""
  priority : String := "normal"
  memorial_focus : Bool := true
deriving DecidableEq, Repr

/-- `ResearchResult` dataclass; times are exact rationals. -/
structure ResearchResult where
  query : String
  agents_used : List String
  primary_analysis : String
  supporting_evidence : List String
  confidence_score : ℚ
  total_processing_time : ℚ
  memorial_context : String
deriving DecidableEq, Repr

/-- `MultiAgentResearchSystem._synthesize_results` (lines 340-372): the
defined degraded output on an empty response list, otherwise first response
as primary analysis, the rest as supporting evidence, and the arithmetic
mean of the confidences. Wall-clock timing is abstracted as `elapsed`. -/
def _synthesize_results (q : ResearchQuery) (responses : List AgentResponse)
    (elapsed : ℚ) : ResearchResult :=
  match responses with
  | [] =>
    { query := q.query
      agents_used := []
      primary_analysis := "No analysis available - please check system configuration."
      supporting_evidence := []
      confidence_score := 0
      total_processing_time := elapsed
      memorial_context := "This system honors the memory of RAF Bomber Command personnel." }
  | r :: rest =>
    { query := q.query
      agents_used := (r :: rest).map AgentResponse.agent_name
      primary_analysis := r.analysis
      supporting_evidence := rest.map AgentResponse.analysis
      confidence_score := ((r :: rest).map AgentResponse.confidence).sum /
        (((r :: rest).length : ℚ))
      total_processing_time := elapsed
      memorial_context := "This research honors the memory of those who served with RAF Bomber Command during World War II." }

/-- The dispatch loop of `MultiAgentResearchSystem.research` (lines
259-264): for each selected key, in order, when the key is registered,
run that agent's `analyze` and collect the response. The per-agent backend
outcome is given by `oracle`; per-call timing is abstracted to `0`. -/
def dispatch (oracle : String → Backend) (roles : List String)
    (query : String) : List AgentResponse :=
  (roles.filter (fun k => registryKeys.contains k)).map
    (fun k => (agentOf k).analyze (oracle k) query 0)

/-- `MultiAgentResearchSystem.research` (lines 249-269): select agents,
gather database context, dispatch each selected agent, synthesize. (The
gathered context only feeds the generative prompt, whose outcome the
`oracle` already fixes.) -/
def research (oracle : String → Backend) (store : Store)
    (q : ResearchQuery) : ResearchResult :=
  let agents_to_use := _select_agents q.query
  let _db_context := _get_database_context store q.query
  _synthesize_results q (dispatch oracle agents_to_use q.query) 0

/-! ## HTTP route handlers -/

/-- The three ways a route handler responds: a 200 payload, a 400 client
error, or a 500 server error. -/
inductive ApiResult (α : Type) where
  | ok (payload : α)
  | clientError (msg : String)
  | serverError (msg : String)
deriving DecidableEq, Repr

/-- Is the response a 400 client error? -/
def ApiResult.isClientError {α : Type} : ApiResult α → Bool
  | .clientError _ => true
  | _ => false

/-- The JSON body of a `/api/personnel/search` request: the `query` key (or
its absence) and the optional `filters` object. An absent body (`None` from
`request.get_json()`) is modelled by `none` at the call site. -/
structure SearchBody where
  query : Option String := none
  filters : Filters := {}
deriving DecidableEq, Repr

/-- The `/api/personnel/search` handler (src/app.py lines 1463-1496):
`validate_input` rejects a missing body, a missing `query` key, and an
over-long value, strips the value in place; an empty stripped query is then
rejected with 400 before `search_personnel` runs. (The rate limiter and
SQLite-failure 500 path are outside the modelled core.) -/
def search_personnel_route (db : List Person) (body : Option SearchBody) :
    ApiResult (List (Person × Nat)) :=
  match body with
  | none => .clientError "No data provided"
  | some data =>
    match data.query with
    | none => .clientError "Missing required field: query"
    | some q0 =>
      let q := pyStrip q0
      if 1000 < q.length then .clientError "Field query too long (max 1000 characters)"
      else if q.data.isEmpty then .clientError "Query cannot be empty"
      else .ok (search_personnel db q data.filters)

/-- The JSON body of a `/api/multi-agent-research` request. -/
structure ResearchBody where
  query : Option String := none
  context : String := ""
  priority : String := "normal"
  memorial_focus : Bool := true
deriving DecidableEq, Repr

/-- The `/api/multi-agent-research` handler
(src/ai_system/complete_ai_research_system.py lines 392-432): a missing
body makes `data.get` raise, caught as a 500; `data.get('query', '')` is
empty for a missing key, and an empty query text is rejected with 400
before any research is conducted. -/
def multi_agent_research_route (oracle : String → Backend) (store : Store)
    (body : Option ResearchBody) : ApiResult ResearchResult :=
  match body with
  | none => .serverError "Research system error"
  | some data =>
    let query_text := data.query.getD ""
    if query_text.data.isEmpty then .clientError "Query is required"
    else .ok (research oracle store
      { query := query_text, context := data.context,
        priority := data.priority, memorial_focus := data.memorial_focus })

/-! ## Spec-side definitions, for comparison with the code's behaviour -/

/-- The tiered scoring rule as the code actually implements it, with the
inclusion threshold made explicit: tier 10 fires when the name **or** the
service number equals the query exactly (plain case-insensitive equality),
the lower tiers use SQL `LIKE` matching of the pattern `%q%` (so `%`/`_`
in the query act as wildcards), and a record whose searchable fields all
fail the `LIKE` test scores 0 (and is excluded by the `WHERE` clause). -/
def tieredScore (q : String) (p : Person) : Nat :=
  if sqlEq p.name q || sqlEq p.service_number q then 10
  else if likeContains p.name q || likeContains p.service_number q then 8
  else if likeContains p.squadron q then 6
  else if likeContains p.rank q then 4
  else if likeContains p.role q then 3
  else if matchesText q p then 1
  else 0

/-- Literal case-insensitive substring containment: the claim's notion of
a field "containing" the free text. -/
def substrContains (field q : String) : Bool :=
  hasSubstr (sqlLower q) (sqlLower field)

/-- The claim's inclusion threshold: some searchable field literally
contains the free text as a substring. -/
def substrAnyField (q : String) (p : Person) : Bool :=
  substrContains p.name q || substrContains p.service_number q ||
  substrContains p.squadron q || substrContains p.rank q ||
  substrContains p.role q || substrContains p.biography q

/-- The tiered scoring rule exactly as the claim words it: score 10 only
when *the primary identity field* — the unique, immutable identity field,
i.e. the service number — equals the query exactly; tier 8 when the
identity or name field contains it as a literal substring; then squadron,
rank, role, any-field, with literal substring containment throughout. -/
def claimedTierScore (q : String) (p : Person) : Nat :=
  if sqlEq p.service_number q then 10
  else if substrContains p.service_number q || substrContains p.name q then 8
  else if substrContains p.squadron q then 6
  else if substrContains p.rank q then 4
  else if substrContains p.role q then 3
  else if substrAnyField q p then 1
  else 0

/-- Agent selection as the spec words it: the registry keys, in declaration
order, restricted to those with a trigger term occurring in the lower-cased
query. -/
def specSelectedAgents (query : String) : List String :=
  registryKeys.filter (fun k => (triggerTerms k).any (containsTerm (pyLower query)))

/-- `f'` extends `f` with one additional present filter constraint: one
field absent in `f` is set in `f'` and the rest are unchanged. -/
def extendsOne (f fPlus : Filters) : Prop :=
  (f.squadron = none ∧ ∃ v, fPlus = { f with squadron := some v }) ∨
  (f.rank = none ∧ ∃ v, fPlus = { f with rank := some v }) ∨
  (f.role = none ∧ ∃ v, fPlus = { f with role := some v })

/-! ## Concrete data used by counterexamples and witnesses -/

/-- A record whose name (but not service number) equals a query exactly. -/
def exPersonC1 : Person := { name := "Amy", service_number := "123" }

/-- A record whose name `LIKE`-matches the wildcard query `"a%b"` without
containing it as a literal substring. -/
def exWildcard : Person := { name := "axb" }

/-- A 101-character query: 99 `a`s, a space, and a `b`. Stripping leaves it
unchanged; truncation to 100 characters then leaves a trailing space. -/
def longQ : String := String.mk (List.replicate 99 'a' ++ [' ', 'b'])

/-- A record whose name is 99 `a`s. -/
def longName : Person := { name := String.mk (List.replicate 99 'a') }

/-- A pathfinder-squadron record for the filter-monotonicity witness. -/
def exPathfinder : Person :=
  { name := "Patrick Cassidy", service_number := "1802082",
    rank := "Sergeant", role := "Flight Engineer",
    squadron := "97 Squadron RAF Pathfinders" }

/-- A second record in a different squadron. -/
def exGunner : Person :=
  { name := "Bob Hall", service_number := "445", rank := "Sergeant",
    role := "Air Gunner", squadron := "44 Squadron" }

/-- A concrete specialist response used by witnesses. -/
def exResponse : AgentResponse :=
  { agent_name := "Personnel Specialist", analysis := "Service record found.",
    confidence := 1/2, sources := [], processing_time := 0 }

/-- A second concrete specialist response used by witnesses. -/
def exResponseB : AgentResponse :=
  { agent_name := "Historical Context Specialist", analysis := "Wartime context.",
    confidence := 9/10, sources := [], processing_time := 0 }

/-- A search request whose query value is whitespace only. -/
def exSearchBody : SearchBody := { query := some "   " }

/-- A research request whose query value is the empty string. -/
def exResearchBody : ResearchBody := { query := some "" }

/-! ## Helper lemmas -/

/-- Stripping is idempotent: re-stripping an already stripped string changes
nothing. -/
theorem pyStrip_idem (s : String) : pyStrip (pyStrip s) = pyStrip s := by
  unfold pyStrip
  congr 1
  show List.rdropWhile pySpace
      ((List.rdropWhile pySpace (s.data.dropWhile pySpace)).dropWhile pySpace)
    = List.rdropWhile pySpace (s.data.dropWhile pySpace)
  set t := s.data.dropWhile pySpace with ht
  have hts : t.dropWhile pySpace = t := by
    rw [ht]; exact List.dropWhile_idempotent pySpace s.data
  have hu : (List.rdropWhile pySpace t).dropWhile pySpace
      = List.rdropWhile pySpace t := by
    cases hu0 : List.rdropWhile pySpace t with
    | nil => simp
    | cons x xs =>
      obtain ⟨r, hr⟩ := List.rdropWhile_prefix pySpace t
      rw [hu0] at hr
      by_cases hx : pySpace x
      · exfalso
        have hdrop := hts
        rw [← hr] at hdrop
        simp only [List.cons_append, List.dropWhile_cons, hx, if_true] at hdrop
        have hlen := congrArg List.length hdrop
        simp only [List.length_cons, List.length_append] at hlen
        have hle := (List.dropWhile_sublist (l := xs ++ r) pySpace).length_le
        simp only [List.length_append] at hle
        omega
      · simp [List.dropWhile_cons, hx]
  rw [hu, List.rdropWhile_idempotent]

/-- Characterization of the scored candidate rows. -/
theorem mem_searchRows {db : List Person} {q : String} {f : Filters}
    {pr : Person × Nat} (h : pr ∈ searchRows db q f) :
    pr.1 ∈ db ∧ matchesText q pr.1 = true ∧ matchesFilters f pr.1 = true
      ∧ pr.2 = relevance_score q pr.1 := by
  unfold searchRows at h
  obtain ⟨p, hp, rfl⟩ := List.mem_map.mp h
  obtain ⟨hdb, hcond⟩ := List.mem_filter.mp hp
  simp only [Bool.and_eq_true] at hcond
  exact ⟨hdb, hcond.1, hcond.2, rfl⟩

/-- Every returned row is a scored candidate row. -/
theorem mem_search {db : List Person} {q : String} {f : Filters} {n : Nat}
    {pr : Person × Nat} (h : pr ∈ search_personnel db q f n) :
    pr ∈ searchRows db (effectiveQuery q) f := by
  unfold search_personnel at h
  have h2 := List.take_subset _ _ h
  rwa [List.mem_insertionSort] at h2

/-- The result length is the limit capped by the candidate count. -/
theorem length_search (db : List Person) (q : String) (f : Filters) (n : Nat) :
    (search_personnel db q f n).length
      = min n (searchRows db (effectiveQuery q) f).length := by
  simp [search_personnel, List.length_take, List.length_insertionSort]

/-- Code-point lexicographic order is total. -/
theorem lexLE_total : ∀ (x y : List Char), lexLE x y = true ∨ lexLE y x = true := by
  intro x
  induction x with
  | nil => intro y; left; simp [lexLE]
  | cons a as ih =>
    intro y
    cases y with
    | nil => right; simp [lexLE]
    | cons b bs =>
      rcases lt_trichotomy a b with h | h | h
      · left; simp [lexLE, h]
      · subst h
        rcases ih bs with h2 | h2
        · left; simp [lexLE, h2]
        · right; simp [lexLE, h2]
      · right; simp [lexLE, h]

/-- Code-point lexicographic order is transitive. -/
theorem lexLE_trans : ∀ (x y z : List Char),
    lexLE x y = true → lexLE y z = true → lexLE x z = true := by
  intro x
  induction x with
  | nil => intro y z _ _; simp [lexLE]
  | cons a as ih =>
    intro y z h1 h2
    cases y with
    | nil => simp [lexLE] at h1
    | cons b bs =>
      cases z with
      | nil => simp [lexLE] at h2
      | cons c cs =>
        simp only [lexLE, Bool.or_eq_true, Bool.and_eq_true,
          decide_eq_true_eq] at h1 h2 ⊢
        rcases h1 with h1 | ⟨rfl, h1⟩
        · rcases h2 with h2 | ⟨rfl, h2⟩
          · exact Or.inl (lt_trans h1 h2)
          · exact Or.inl h1
        · rcases h2 with h2 | ⟨rfl, h2⟩
          · exact Or.inl h2
          · exact Or.inr ⟨rfl, ih bs cs h1 h2⟩

instance : IsTotal (Person × Nat) searchOrder := by
  constructor
  intro a b
  rcases Nat.lt_trichotomy a.2 b.2 with h | h | h
  · right; exact Or.inl h
  · rcases lexLE_total a.1.name.data b.1.name.data with h2 | h2
    · left; exact Or.inr ⟨h, h2⟩
    · right; exact Or.inr ⟨h.symm, h2⟩
  · left; exact Or.inl h

instance : IsTrans (Person × Nat) searchOrder := by
  constructor
  intro a b c h1 h2
  rcases h1 with h1 | ⟨e1, n1⟩
  · rcases h2 with h2 | ⟨e2, n2⟩
    · exact Or.inl (Nat.lt_trans h2 h1)
    · exact Or.inl (e2 ▸ h1)
  · rcases h2 with h2 | ⟨e2, n2⟩
    · exact Or.inl (e1 ▸ h2)
    · exact Or.inr ⟨e1.trans e2, lexLE_trans _ _ _ n1 n2⟩

/-- On the rows passing the `WHERE` clause, the code's `CASE` score equals
the tiered score with the explicit zero tier, and is never zero. -/
theorem relevance_eq_tiered (q : String) (p : Person)
    (h : matchesText q p = true) :
    relevance_score q p = tieredScore q p ∧ tieredScore q p ≠ 0 := by
  unfold relevance_score tieredScore
  cases h1 : sqlEq p.name q <;> cases h2 : sqlEq p.service_number q <;>
    cases h3 : likeContains p.name q <;> cases h4 : likeContains p.service_number q <;>
      cases h5 : likeContains p.squadron q <;> cases h6 : likeContains p.rank q <;>
        cases h7 : likeContains p.role q <;> simp_all

/-- Rows passing the extended filter set pass the original one. -/
theorem filters_mono {f fPlus : Filters} (h : extendsOne f fPlus) (p : Person)
    (hp : matchesFilters fPlus p = true) : matchesFilters f p = true := by
  rcases h with ⟨hn, v, rfl⟩ | ⟨hn, v, rfl⟩ | ⟨hn, v, rfl⟩ <;>
    simp only [matchesFilters, Bool.and_eq_true] at hp ⊢
  · exact ⟨⟨by simp [hn, filterCond], hp.1.2⟩, hp.2⟩
  · exact ⟨⟨hp.1.1, by simp [hn, filterCond]⟩, hp.2⟩
  · exact ⟨hp.1, by simp [hn, filterCond]⟩

/-- Extending the filter set can only shrink the candidate row set. -/
theorem searchRows_mono {f fPlus : Filters} (h : extendsOne f fPlus)
    (db : List Person) (q : String) :
    (searchRows db q fPlus).length ≤ (searchRows db q f).length := by
  simp only [searchRows, List.length_map]
  rw [← List.countP_eq_length_filter, ← List.countP_eq_length_filter]
  apply List.countP_mono_left
  intro p _ hp
  simp only [Bool.and_eq_true] at hp ⊢
  exact ⟨hp.1, filters_mono h p hp.2⟩

/-- The if-chain of `_select_agents` is the registry-order filter, with the
default pair when nothing matched. -/
theorem select_agents_eq (q : String) :
    _select_agents q =
      if (specSelectedAgents q).isEmpty then ["personnel", "historical"]
      else specSelectedAgents q := by
  unfold _select_agents specSelectedAgents registryKeys
  cases h1 : (triggerTerms "personnel").any (containsTerm (pyLower q)) <;>
    cases h2 : (triggerTerms "aircraft").any (containsTerm (pyLower q)) <;>
      cases h3 : (triggerTerms "operations").any (containsTerm (pyLower q)) <;>
        cases h4 : (triggerTerms "historical").any (containsTerm (pyLower q)) <;>
          cases h5 : (triggerTerms "statistical").any (containsTerm (pyLower q)) <;>
            simp [List.filter, h1, h2, h3, h4, h5]

/-- Every selected key is a registry key, so the dispatch loop's membership
guard filters nothing out. -/
theorem select_agents_keys (q : String) :
    (_select_agents q).filter (fun k => registryKeys.contains k)
      = _select_agents q := by
  rw [List.filter_eq_self]
  intro k hk
  rw [select_agents_eq] at hk
  split at hk
  · simp only [List.mem_cons, List.not_mem_nil, or_false] at hk
    rcases hk with rfl | rfl <;> decide
  · unfold specSelectedAgents at hk
    exact List.elem_iff.mpr (List.mem_filter.mp hk).1

/-- `analyze` labels its response with the agent's name in every branch. -/
theorem analyze_agent_name (a : Agent) (b : Backend) (q : String) (t : ℚ) :
    (a.analyze b q t).agent_name = a.name := by
  cases b <;> simp [Agent.analyze]

/-! ## Claims C4-C8 -/

/-- Claim C4: `_select_agents` always returns a non-empty list of role
names; a role is included exactly when one of its trigger terms occurs in
the lower-cased query, in fixed registry order (`specSelectedAgents` is the
registry-order filter), and the no-match fallback is the fixed pair
`["personnel", "historical"]`; the result is always an ordered
sub-selection of the registry (a `List.Sublist`). Determinism is immediate: the selector is a
pure function of the query. -/
theorem select_agents_spec (q : String) :
    _select_agents q ≠ []
    ∧ _select_agents q =
        (if specSelectedAgents q = [] then ["personnel", "historical"]
         else specSelectedAgents q)
    ∧ List.Sublist (_select_agents q) registryKeys := by
  rw [select_agents_eq]
  refine ⟨?_, ?_, ?_⟩
  · split <;> simp_all [List.isEmpty_iff]
  · rcases h : specSelectedAgents q with _ | ⟨a, l⟩ <;> simp [h]
  · split
    · decide
    · exact List.filter_sublist _

/-- Claim C5: the synthesized confidence is the arithmetic mean of the
specialist confidences for a non-empty response list (written in `r :: rest`
form) and `0.0` for an empty one; the primary analysis is the first
response's text and the supporting evidence is the remaining texts in
order. -/
theorem synthesize_results_spec (q : ResearchQuery) (r : AgentResponse)
    (rest : List AgentResponse) (t : ℚ) :
    (_synthesize_results q (r :: rest) t).confidence_score
        = ((r :: rest).map AgentResponse.confidence).sum / ((r :: rest).length : ℚ)
    ∧ (_synthesize_results q (r :: rest) t).primary_analysis = r.analysis
    ∧ (_synthesize_results q (r :: rest) t).supporting_evidence
        = rest.map AgentResponse.analysis
    ∧ (_synthesize_results q [] t).confidence_score = 0 := by
  refine ⟨rfl, rfl, rfl, rfl⟩

/-- Claim C6: when the generative call raises, `analyze` swallows the error
and returns a response whose text is the non-empty explanatory string
naming the error and whose confidence is exactly 0.3. -/
theorem analyze_error_spec (a : Agent) (e query : String) (t : ℚ) :
    (a.analyze (Backend.error e) query t).confidence = 3/10
    ∧ (a.analyze (Backend.error e) query t).analysis
        = "Analysis error: " ++ e ++ ". " ++ a.expertise ++
          " specialist attempted to analyze: " ++ query
    ∧ (a.analyze (Backend.error e) query t).analysis ≠ "" := by
  refine ⟨rfl, rfl, ?_⟩
  intro hcontra
  have hl := congrArg String.length hcontra
  simp only [Agent.analyze, String.length_append] at hl
  rw [show ("Analysis error: " : String).length = 16 from rfl,
    show ("" : String).length = 0 from rfl] at hl
  omega

/-- Claim C7: the dispatch loop of `research` yields exactly one response
per selected role, in selection order, whatever each specialist's backend
outcome (including errors, which `analyze` converts to degraded responses
rather than dropping the role). -/
theorem dispatch_order_spec (oracle : String → Backend) (q : String) :
    (dispatch oracle (_select_agents q) q).length = (_select_agents q).length
    ∧ (dispatch oracle (_select_agents q) q).map AgentResponse.agent_name
        = (_select_agents q).map (fun k => (agentOf k).name) := by
  unfold dispatch
  rw [select_agents_keys]
  constructor
  · simp
  · simp [analyze_agent_name]

/-- Claim C8, counterexample: on a store failure the Context Gatherer does
not return the empty string the claim asserts; it returns the error text. -/
theorem db_context_empty_counterexample :
    _get_database_context (Except.error "unable to open database file")
        "Patrick Cassidy"
      = "Database context unavailable: unable to open database file"
    ∧ _get_database_context (Except.error "unable to open database file")
        "Patrick Cassidy" ≠ "" := by
  exact ⟨rfl, by decide⟩

/-- Claim C8, amended: when the record store fails, the Context Gatherer
catches the error and returns the non-empty fallback string
`"Database context unavailable: <error>"` (not an exception), and the
research pipeline proceeds exactly as it would with any other context
string (the dispatch and synthesis do not depend on the store). -/
theorem db_context_failure_spec (e q : String) :
    _get_database_context (Except.error e) q
        = "Database context unavailable: " ++ e
    ∧ ∀ (oracle : String → Backend) (rq : ResearchQuery),
        research oracle (Except.error e) rq
          = _synthesize_results rq
              (dispatch oracle (_select_agents rq.query) rq.query) 0 := by
  exact ⟨rfl, fun _ _ => rfl⟩

/-! ## Claims C1-C3, C9, C10 -/

/-- Claim C1, counterexample, two independent divergences. First, the code
awards tier 10 when the *name* equals the query exactly, even though the
primary identity field (the service number) does not; under the claim's
rule as worded this record, whose name contains the query, would score 8.
Second, the claim's tiers use literal substring containment, but the code
interpolates the query into a `LIKE` pattern, so for the query `"a%b"` the
record named `"axb"` is returned with score 8 although under the claim's
rule it scores 0 and must not appear at all. -/
theorem search_scores_claim_counterexample :
    search_personnel [exPersonC1] "amy" noFilters 20 = [(exPersonC1, 10)]
    ∧ claimedTierScore "amy" exPersonC1 = 8
    ∧ ¬ (∀ pr ∈ search_personnel [exPersonC1] "amy" noFilters 20,
          pr.2 = claimedTierScore "amy" pr.1)
    ∧ search_personnel [exWildcard] "a%b" noFilters 20 = [(exWildcard, 8)]
    ∧ claimedTierScore "a%b" exWildcard = 0 := by
  refine ⟨by decide, by decide, by decide, by decide, by decide⟩

/-- Claim C1 (amended): for a query already in normalized form (stripped,
at most 100 characters), every returned row carries exactly the tiered
score in which tier 10 is awarded when the name **or** the service number
equals the query exactly and the lower tiers use SQL `LIKE` matching of
the pattern `%query%` (with `%`/`_` wildcards): 8 on a name or
service-number match, 6 squadron, 4 rank, 3 role, 1 when any searchable
field matches; and no row scoring 0 under this rule is returned. -/
theorem search_scores_tiered (db : List Person) (q : String) (f : Filters)
    (n : Nat) (hq : effectiveQuery q = q) :
    ∀ pr ∈ search_personnel db q f n,
      pr.2 = tieredScore q pr.1 ∧ tieredScore q pr.1 ≠ 0 := by
  intro pr hpr
  obtain ⟨_, htext, _, hscore⟩ := mem_searchRows (mem_search hpr)
  rw [hq] at htext hscore
  obtain ⟨heq, hne⟩ := relevance_eq_tiered q pr.1 htext
  exact ⟨hscore.trans heq, hne⟩

/-- Witness for the amended claim C1 at a concrete input. -/
theorem search_scores_tiered_witness :
    effectiveQuery "amy" = "amy"
    ∧ (exPersonC1, 10).2 = tieredScore "amy" (exPersonC1, 10).1
    ∧ tieredScore "amy" (exPersonC1, 10).1 ≠ 0 := by
  refine ⟨rfl,
    (search_scores_tiered [exPersonC1] "amy" noFilters 20 rfl
      (exPersonC1, 10) (by decide)).1,
    (search_scores_tiered [exPersonC1] "amy" noFilters 20 rfl
      (exPersonC1, 10) (by decide)).2⟩

/-- Claim C2: for every query, filter set and limit, the result list is
sorted by relevance score descending with ties broken by name ascending
(the `searchOrder` relation), and its length never exceeds the limit
(20 when the call site uses the default). -/
theorem search_sorted_spec (db : List Person) (q : String) (f : Filters)
    (n : Nat) :
    List.Sorted searchOrder (search_personnel db q f n)
    ∧ (search_personnel db q f n).length ≤ n
    ∧ (search_personnel db q f).length ≤ 20 := by
  refine ⟨?_, ?_, ?_⟩
  · unfold search_personnel
    exact List.Pairwise.sublist (List.take_sublist _ _)
      (List.sorted_insertionSort searchOrder _)
  · rw [length_search]; exact Nat.min_le_left _ _
  · rw [length_search]; exact Nat.min_le_left _ _

/-- Claim C3: adding one further present filter constraint never increases
the result count, and in both calls every returned row's score is the
filter-independent relevance score of the (normalized) query — filters
narrow the candidate set and never change any record's relevance score. -/
theorem search_filter_monotone (db : List Person) (q : String) (n : Nat)
    {f fPlus : Filters} (h : extendsOne f fPlus) :
    (search_personnel db q fPlus n).length ≤ (search_personnel db q f n).length
    ∧ (∀ pr ∈ search_personnel db q fPlus n,
        pr.2 = relevance_score (effectiveQuery q) pr.1)
    ∧ (∀ pr ∈ search_personnel db q f n,
        pr.2 = relevance_score (effectiveQuery q) pr.1) := by
  refine ⟨?_, ?_, ?_⟩
  · rw [length_search, length_search]
    exact min_le_min (Nat.le_refl n) (searchRows_mono h db _)
  · intro pr hpr; exact (mem_searchRows (mem_search hpr)).2.2.2
  · intro pr hpr; exact (mem_searchRows (mem_search hpr)).2.2.2

/-- Witness for claim C3 at a concrete input: adding a squadron filter to
an unfiltered search for "sergeant". -/
theorem search_filter_monotone_witness :
    extendsOne noFilters { squadron := some "97" }
    ∧ (search_personnel [exPathfinder, exGunner] "sergeant"
          { squadron := some "97" } 20).length
        ≤ (search_personnel [exPathfinder, exGunner] "sergeant" noFilters 20).length
    ∧ (exPathfinder, 4).2
        = relevance_score (effectiveQuery "sergeant") (exPathfinder, 4).1 := by
  have hext : extendsOne noFilters { squadron := some "97" } :=
    Or.inl ⟨rfl, "97", rfl⟩
  exact ⟨hext,
    (search_filter_monotone [exPathfinder, exGunner] "sergeant" 20 hext).1,
    (search_filter_monotone [exPathfinder, exGunner] "sergeant" 20 hext).2.1
      (exPathfinder, 4) (by decide)⟩

/-- Claim C9: a request whose query text is missing or empty (after the
search route's stripping) is answered with a 400 client error by both the
search route and the research route, and the response is independent of
the record store and of every specialist backend — no search and no
dispatch takes place. -/
theorem empty_query_rejected (db dbB : List Person) (b : SearchBody)
    (hb : b.query = none ∨ ∃ q0, b.query = some q0 ∧ pyStrip q0 = "")
    (oracle oracleB : String → Backend) (store storeB : Store)
    (rb : ResearchBody)
    (hrb : rb.query = none ∨ rb.query = some "") :
    (search_personnel_route db (some b)).isClientError = true
    ∧ search_personnel_route db (some b) = search_personnel_route dbB (some b)
    ∧ (multi_agent_research_route oracle store (some rb)).isClientError = true
    ∧ multi_agent_research_route oracle store (some rb)
        = multi_agent_research_route oracleB storeB (some rb) := by
  have hs : ∀ db0 : List Person,
      search_personnel_route db0 (some b)
        = (if b.query = none
           then ApiResult.clientError "Missing required field: query"
           else ApiResult.clientError "Query cannot be empty") := by
    intro db0
    rcases hb with hb | ⟨q0, hb, hq0⟩
    · simp [search_personnel_route, hb]
    · simp [search_personnel_route, hb, hq0, String.length]
  have hr : ∀ (o : String → Backend) (st : Store),
      multi_agent_research_route o st (some rb)
        = ApiResult.clientError "Query is required" := by
    intro o st
    rcases hrb with hrb | hrb <;> simp [multi_agent_research_route, hrb]
  refine ⟨?_, ?_, ?_, ?_⟩
  · rw [hs db]; split <;> rfl
  · rw [hs db, hs dbB]
  · rw [hr oracle store]; rfl
  · rw [hr oracle store, hr oracleB storeB]

/-- Witness for claim C9: a whitespace-only search query and an empty
research query, with two different stores/backends. -/
theorem empty_query_rejected_witness :
    (exSearchBody.query = none
      ∨ ∃ q0, exSearchBody.query = some q0 ∧ pyStrip q0 = "")
    ∧ (exResearchBody.query = none ∨ exResearchBody.query = some "")
    ∧ (search_personnel_route [] (some exSearchBody)).isClientError = true
    ∧ search_personnel_route [] (some exSearchBody)
        = search_personnel_route [exPathfinder] (some exSearchBody)
    ∧ (multi_agent_research_route (fun _ => Backend.unavailable)
        (Except.ok ([], [])) (some exResearchBody)).isClientError = true
    ∧ multi_agent_research_route (fun _ => Backend.unavailable)
        (Except.ok ([], [])) (some exResearchBody)
        = multi_agent_research_route (fun _ => Backend.error "boom")
            (Except.error "down") (some exResearchBody) := by
  have hb : exSearchBody.query = none
      ∨ ∃ q0, exSearchBody.query = some q0 ∧ pyStrip q0 = "" :=
    Or.inr ⟨"   ", rfl, by decide⟩
  have hrb : exResearchBody.query = none ∨ exResearchBody.query = some "" :=
    Or.inr rfl
  obtain ⟨h1, h2, h3, h4⟩ := empty_query_rejected [] [exPathfinder] exSearchBody hb
    (fun _ => Backend.unavailable) (fun _ => Backend.error "boom")
    (Except.ok ([], [])) (Except.error "down") exResearchBody hrb
  exact ⟨hb, hrb, h1, h2, h3, h4⟩

/-- Claim C10, counterexample: `search_personnel` is **not** invariant
under replacing the query by `strip(query)[:100]`: truncating the stripped
101-character query `longQ` leaves a trailing space, which a second
strip-and-truncate pass removes, producing a different effective query and
a different result list. -/
theorem search_truncation_counterexample :
    search_personnel [longName] longQ noFilters 20 = []
    ∧ search_personnel [longName] (pyTake 100 (pyStrip longQ)) noFilters 20
        = [(longName, 10)]
    ∧ search_personnel [longName] longQ noFilters 20
        ≠ search_personnel [longName] (pyTake 100 (pyStrip longQ)) noFilters 20 := by
  refine ⟨by decide, by decide, by decide⟩

/-- Claim C10 (amended): the result depends on the query only through
`effectiveQuery q = strip(q)[:100]`; in particular stripping first never
changes the result, and characters of the **stripped** query beyond
position 100 never influence it. (Re-stripping after truncation is not
neutral, per the counterexample.) -/
theorem search_effective_query_spec (db : List Person) (f : Filters) (n : Nat)
    (q qB : String) (h : effectiveQuery q = effectiveQuery qB) :
    search_personnel db q f n = search_personnel db qB f n
    ∧ search_personnel db q f n = search_personnel db (pyStrip q) f n := by
  constructor
  · unfold search_personnel; rw [h]
  · unfold search_personnel effectiveQuery
    rw [pyStrip_idem]

/-- Witness for the amended claim C10: leading/trailing whitespace
variants of one query give identical results. -/
theorem search_effective_query_witness :
    effectiveQuery " amy" = effectiveQuery "amy "
    ∧ search_personnel [exGunner] " amy" noFilters 20
        = search_personnel [exGunner] "amy " noFilters 20
    ∧ search_personnel [exGunner] " amy" noFilters 20
        = search_personnel [exGunner] (pyStrip " amy") noFilters 20 := by
  have h : effectiveQuery " amy" = effectiveQuery "amy " := by decide
  exact ⟨h,
    (search_effective_query_spec [exGunner] noFilters 20 " amy" "amy " h).1,
    (search_effective_query_spec [exGunner] noFilters 20 " amy" "amy " h).2⟩

end RafVerify
